import Mathlib

/-!
Verification of the mediabase service layer (internal/service) against its
specification.  The Go code is embedded shallowly:

* pure helpers (`generateObjectKey`, the bucket-policy builder, the content
  type and size gates) become Lean functions;
* the `Storage` interface becomes a structure of state-passing functions
  (state type `σ`), and each service method returns, besides the backend
  state, the exact list of backend invocations it performed and either the
  response or the error it surfaces — errors are one constructor per
  distinct `fmt.Errorf` site of the Go source;
* `uuid.New().String()` (randomness) is an explicit oracle argument;
* Go's `filepath.Join` / `filepath.Clean` (standard library, Unix rules)
  are modelled from their documented lexical algorithm.
-/

/-- Requests and responses of the mediabase v1 API, shapes as in the Go
generated message types used by the service. `maxFileSize` is an int64. -/
structure PresignUploadRequest where
  bucketName : String
  contentType : String
  maxFileSize : Int
  path : String
  fileName : String
deriving DecidableEq, Repr

structure PresignUploadResponse where
  presignedUrl : String
  objectKey : String
  expiresIn : Nat
  formData : List (String × String)
deriving DecidableEq, Repr

structure PresignDownloadRequest where
  bucketName : String
  objectKey : String
deriving DecidableEq, Repr

structure PresignDownloadResponse where
  presignedUrl : String
  expiresIn : Nat
deriving DecidableEq, Repr

structure CreateBucketRequest where
  bucketName : String
  isPublic : Bool
deriving DecidableEq, Repr

structure CreateBucketResponse where
  success : Bool
deriving DecidableEq, Repr

/-- One constructor per distinct error-return site of the service methods
(each is a distinct `fmt.Errorf` format string in upload.go). -/
inductive ServiceError where
  | invalidContentType (contentType : String)
  | sizeExceeded (requested serverMax : Int)
  | generateUploadURLFailed (cause : String)
  | objectExistsFailed (cause : String)
  | objectNotFound (objectKey bucketName : String)
  | generateDownloadURLFailed (cause : String)
  | createBucketFailed (cause : String)
  | setBucketPolicyFailed (cause : String)
deriving DecidableEq, Repr

/-- A record of one invocation of the storage backend, with the arguments
the service passed (expiry in seconds). -/
inductive BackendCall where
  | generateUploadURL (bucketName objectKey contentType : String)
      (expirySeconds : Nat) (maxSize : Int)
  | generateDownloadURL (bucketName objectKey : String) (expirySeconds : Nat)
  | objectExists (bucketName objectKey : String)
  | createBucket (bucketName : String)
  | setBucketPolicy (bucketName policy : String)
deriving DecidableEq, Repr

/-! ## Go `path/filepath` (Unix), modelled from the standard library

`generateObjectKey` calls `filepath.Join`, which concatenates its non-empty
arguments with a single separator and then applies `filepath.Clean`.
`Clean` is documented as a purely lexical normalisation: replace runs of
separators by one separator, drop `.` elements, drop a `..` element
together with the non-`..` element before it, drop `..` elements at the
start of a rooted path, and return `.` for an empty result.  We implement
exactly that on `/`-separated segments. -/

/-- Splits a character list at every `/` (the separator itself dropped),
like `strings.Split` on the separator: `"a//b"` gives `["a", "", "b"]`. -/
def splitOnSlash : List Char → List (List Char)
  | [] => [[]]
  | c :: rest =>
      match splitOnSlash rest with
      | [] => [[]]
      | s :: ss => if c = '/' then [] :: s :: ss else (c :: s) :: ss

/-- One step of the `Clean` segment scan: `stack` holds the output
elements in reverse order. -/
def cleanStep (rooted : Bool) (stack : List (List Char)) (seg : List Char) :
    List (List Char) :=
  if seg = [] ∨ seg = ['.'] then stack
  else if seg = ['.', '.'] then
    match stack with
    | [] => if rooted then [] else [['.', '.']]
    | prev :: rest => if prev = ['.', '.'] then ['.', '.'] :: prev :: rest else rest
  else seg :: stack

/-- Models Go `filepath.Clean` with `/` as separator (the service targets
Linux), per the documented rules quoted above. -/
def clean (p : String) : String :=
  if p = "" then "."
  else
    let cs := p.toList
    let rooted : Bool := cs.head? = some '/'
    let stack := (splitOnSlash cs).foldl (cleanStep rooted) []
    let body := List.intercalate ['/'] stack.reverse
    if rooted then String.mk ('/' :: body)
    else if body = [] then "."
    else String.mk body

/-- Models Go `filepath.Join` for two elements: empty elements are ignored
and the joined string is passed through `Clean`; all-empty input yields
the empty string. -/
def filepathJoin (a b : String) : String :=
  if a = "" then
    if b = "" then "" else clean b
  else if b = "" then clean a
  else clean (a ++ "/" ++ b)

/-- The extension table of `generateObjectKey`'s `switch contentType`. -/
def extForContentType (contentType : String) : String :=
  if contentType = "image/jpeg" then ".jpg"
  else if contentType = "image/png" then ".png"
  else if contentType = "image/webp" then ".webp"
  else ".bin"

/-- Embeds `generateObjectKey` (upload.go).  `freshUUID` is the string the
Go code obtains from `uuid.New().String()`, made an explicit oracle
argument here. -/
def generateObjectKey (path fileName contentType freshUUID : String) : String :=
  let name :=
    if fileName ≠ "" then fileName
    else freshUUID ++ extForContentType contentType
  if path ≠ "" then filepathJoin path name
  else name

/-! ## The storage abstraction and the service

The Go `Storage` interface is embedded as a structure of state-passing
functions over an abstract backend-state type `σ` (a concrete client holds
connections/credentials; here the state also lets a backend model be
stateful, as the MinIO bucket model below is).  Only the operations the
claims exercise are included.  Each returns the next state and either its
result or a Go error (a string). -/
structure Storage (σ : Type) where
  GeneratePresignedUploadURL :
    σ → String → String → String → Nat → Int → σ × Except String (String × List (String × String))
  GeneratePresignedDownloadURL : σ → String → String → Nat → σ × Except String String
  ObjectExists : σ → String → String → σ × Except String Bool
  CreateBucket : σ → String → σ × Except String Unit
  SetBucketPolicy : σ → String → String → σ × Except String Unit

/-- Service configuration (service.go `Config`): the server-wide size
ceiling and the content-type allow-list. -/
structure Config where
  MaxFileSize : Int
  AllowedContentTypes : List String

/-- The service (service.go `Service`): the `allowedContentTypes`
`map[string]bool` is represented by its characteristic function. -/
structure Service (σ : Type) where
  storage : Storage σ
  maxFileSize : Int
  allowedContentTypes : String → Bool

/-- Embeds `NewService` (service.go): builds the allow-map from the
configured list; map lookup of a missing key yields `false`. -/
def NewService (cfg : Config) (storageProvider : Storage σ) : Service σ :=
  { storage := storageProvider
    maxFileSize := cfg.MaxFileSize
    allowedContentTypes := fun ct => cfg.AllowedContentTypes.contains ct }

/-- Embeds `isValidContentType` (upload.go). -/
def Service.isValidContentType (s : Service σ) (contentType : String) : Bool :=
  s.allowedContentTypes contentType

/-- `defaultUploadExpiry` (upload.go): 60 seconds. -/
def defaultUploadExpirySeconds : Nat := 60

/-- `defaultDownloadExpiry` (upload.go): 3600 seconds. -/
def defaultDownloadExpirySeconds : Nat := 3600

deriving instance DecidableEq for Except

/-- Outcome of one service method: the backend state afterwards, the exact
backend invocations performed (in order), and the response or error. -/
structure StepResult (σ ρ : Type) where
  state : σ
  calls : List BackendCall
  result : Except ServiceError ρ
deriving DecidableEq, Repr

/-- Embeds `Service.PresignUpload` (upload.go): content-type gate, size
gate, key derivation, backend call with the fixed 60-second expiry and the
requested max size. -/
def Service.PresignUpload (s : Service σ) (st : σ) (freshUUID : String)
    (req : PresignUploadRequest) : StepResult σ PresignUploadResponse :=
  if !(s.isValidContentType req.contentType) then
    ⟨st, [], .error (.invalidContentType req.contentType)⟩
  else if req.maxFileSize > s.maxFileSize then
    ⟨st, [], .error (.sizeExceeded req.maxFileSize s.maxFileSize)⟩
  else
    let objectKey := generateObjectKey req.path req.fileName req.contentType freshUUID
    let call := BackendCall.generateUploadURL req.bucketName objectKey
      req.contentType defaultUploadExpirySeconds req.maxFileSize
    match s.storage.GeneratePresignedUploadURL st req.bucketName objectKey
        req.contentType defaultUploadExpirySeconds req.maxFileSize with
    | (st', .error e) => ⟨st', [call], .error (.generateUploadURLFailed e)⟩
    | (st', .ok (presignedURL, formData)) =>
        ⟨st', [call],
          .ok { presignedUrl := presignedURL
                objectKey := objectKey
                expiresIn := defaultUploadExpirySeconds
                formData := formData }⟩

/-- Embeds `Service.PresignDownload` (upload.go): existence check first,
then the backend call with the fixed 3600-second expiry. -/
def Service.PresignDownload (s : Service σ) (st : σ)
    (req : PresignDownloadRequest) : StepResult σ PresignDownloadResponse :=
  let checkCall := BackendCall.objectExists req.bucketName req.objectKey
  match s.storage.ObjectExists st req.bucketName req.objectKey with
  | (st', .error e) => ⟨st', [checkCall], .error (.objectExistsFailed e)⟩
  | (st', .ok false) =>
      ⟨st', [checkCall], .error (.objectNotFound req.objectKey req.bucketName)⟩
  | (st', .ok true) =>
      let urlCall := BackendCall.generateDownloadURL req.bucketName req.objectKey
        defaultDownloadExpirySeconds
      match s.storage.GeneratePresignedDownloadURL st' req.bucketName req.objectKey
          defaultDownloadExpirySeconds with
      | (st'', .error e) =>
          ⟨st'', [checkCall, urlCall], .error (.generateDownloadURLFailed e)⟩
      | (st'', .ok presignedURL) =>
          ⟨st'', [checkCall, urlCall],
            .ok { presignedUrl := presignedURL
                  expiresIn := defaultDownloadExpirySeconds }⟩

/-- Everything of the `fmt.Sprintf` public-read policy template before the
single `%s` verb (upload.go, CreateBucket). -/
def policyDocHead : String :=
  "\x7b\n\t\t\t\"Version\": \"2012-10-17\",\n\t\t\t\"Statement\": [\n\t\t\t\t\x7b\n\t\t\t\t\t\"Effect\": \"Allow\",\n\t\t\t\t\t\"Principal\": \x7b\"AWS\": [\"*\"]\x7d,\n\t\t\t\t\t\"Action\": [\"s3:GetObject\"],\n\t\t\t\t\t\"Resource\": [\"arn:aws:s3:::"

/-- Everything of the `fmt.Sprintf` public-read policy template after the
single `%s` verb (upload.go, CreateBucket). -/
def policyDocTail : String :=
  "/*\"]\n\t\t\t\t\x7d\n\t\t\t]\n\t\t\x7d"

/-- The policy document `fmt.Sprintf` builds for a bucket name in
CreateBucket (upload.go): the template with the bucket name substituted
for the `%s`. -/
def publicReadPolicy (bucketName : String) : String :=
  policyDocHead ++ bucketName ++ policyDocTail

/-- Embeds `Service.CreateBucket` (upload.go): create-if-absent, then for
a public bucket build and apply the public-read policy. -/
def Service.CreateBucket (s : Service σ) (st : σ)
    (req : CreateBucketRequest) : StepResult σ CreateBucketResponse :=
  let createCall := BackendCall.createBucket req.bucketName
  match s.storage.CreateBucket st req.bucketName with
  | (st', .error e) => ⟨st', [createCall], .error (.createBucketFailed e)⟩
  | (st', .ok _) =>
      if req.isPublic then
        let policy := publicReadPolicy req.bucketName
        match s.storage.SetBucketPolicy st' req.bucketName policy with
        | (st'', .error e) =>
            ⟨st'', [createCall, .setBucketPolicy req.bucketName policy],
              .error (.setBucketPolicyFailed e)⟩
        | (st'', .ok _) =>
            ⟨st'', [createCall, .setBucketPolicy req.bucketName policy],
              .ok { success := true }⟩
      else ⟨st', [createCall], .ok { success := true }⟩

/-! ## MinIO backend model (bucket management)

`MinIOStorage.CreateBucket` (internal/storage/minio) guards `MakeBucket`
with `BucketExists`.  The minio-go client is external code; its two bucket
calls are modelled by their documented behaviour over an explicit state,
the list of existing bucket names, with transport assumed healthy:
`BucketExists` reports membership, `MakeBucket` errors on an existing
bucket (S3 `BucketAlreadyOwnedByYou`) and otherwise adds it. -/
def MinIOClient.BucketExists (buckets : List String) (bucketName : String) : Bool :=
  buckets.contains bucketName

def MinIOClient.MakeBucket (buckets : List String) (bucketName : String) :
    Except String (List String) :=
  if buckets.contains bucketName then .error "Bucket already owned by you"
  else .ok (bucketName :: buckets)

/-- Embeds `MinIOStorage.CreateBucket`: check existence, create only when
absent, succeed either way. -/
def MinIOStorage.CreateBucket (buckets : List String) (bucketName : String) :
    List String × Except String Unit :=
  let found := MinIOClient.BucketExists buckets bucketName
  if !found then
    match MinIOClient.MakeBucket buckets bucketName with
    | .error e => (buckets, .error ("failed to create bucket: " ++ e))
    | .ok buckets' => (buckets', .ok ())
  else (buckets, .ok ())

/-- The setBucketPolicy invocations in a call trace, as
(bucket, policy document) pairs. -/
def setBucketPolicyCalls : List BackendCall → List (String × String)
  | [] => []
  | .setBucketPolicy b p :: rest => (b, p) :: setBucketPolicyCalls rest
  | _ :: rest => setBucketPolicyCalls rest

/-- Whether `pat` occurs as a contiguous run inside the second list. -/
def charsContain (pat : List Char) : List Char → Bool
  | [] => pat.isEmpty
  | c :: rest => pat.isPrefixOf (c :: rest) || charsContain pat rest

/-- Substring test used to state facts about the policy document. -/
def strContains (s pat : String) : Bool :=
  charsContain pat.toList s.toList

/-! ## Concrete instances for witnesses -/

/-- A healthy stateless backend stub. -/
def stubStorage : Storage Unit where
  GeneratePresignedUploadURL := fun st _ _ _ _ _ =>
    (st, .ok ("http://minio.local/upload", [("key", "users/avatars/avatar.jpg")]))
  GeneratePresignedDownloadURL := fun st _ _ _ => (st, .ok "http://minio.local/download")
  ObjectExists := fun st _ _ => (st, .ok true)
  CreateBucket := fun st _ => (st, .ok ())
  SetBucketPolicy := fun st _ _ => (st, .ok ())

/-- A backend stub on which every object is missing. -/
def stubStorageNoObject : Storage Unit :=
  { stubStorage with ObjectExists := fun st _ _ => (st, .ok false) }

/-- A backend stub whose SetBucketPolicy fails. -/
def stubStoragePolicyFails : Storage Unit :=
  { stubStorage with SetBucketPolicy := fun st _ _ => (st, .error "connection reset") }

/-- An example configuration: a 10 MiB ceiling and the three image types. -/
def testConfig : Config :=
  { MaxFileSize := 10485760
    AllowedContentTypes := ["image/jpeg", "image/png", "image/webp"] }

/-- A backend whose bucket creation is the MinIO model above (the object
operations are unavailable; bucket-creation claims never reach them). -/
def minioBucketBackend : Storage (List String) where
  GeneratePresignedUploadURL := fun st _ _ _ _ _ => (st, .error "not modelled")
  GeneratePresignedDownloadURL := fun st _ _ _ => (st, .error "not modelled")
  ObjectExists := fun st _ _ => (st, .error "not modelled")
  CreateBucket := MinIOStorage.CreateBucket
  SetBucketPolicy := fun st _ _ => (st, .ok ())

/-! ## Helper lemmas -/

theorem extForContentType_ne_empty (contentType : String) :
    extForContentType contentType ≠ "" := by
  unfold extForContentType
  split_ifs <;> decide

theorem append_ne_empty_of_right (a b : String) (hb : b ≠ "") : a ++ b ≠ "" := by
  intro h
  apply hb
  have hd := congrArg String.data h
  simp only [String.data_append] at hd
  exact String.ext (List.append_eq_nil.mp hd).2

theorem contains_iff_mem (l : List String) (a : String) :
    l.contains a = true ↔ a ∈ l :=
  List.elem_iff

/-- The content-type gate of a freshly built service is exact membership
in the configured list. -/
theorem isValidContentType_newService (cfg : Config) (b : Storage σ)
    (contentType : String) :
    (NewService cfg b).isValidContentType contentType = true ↔
      contentType ∈ cfg.AllowedContentTypes :=
  contains_iff_mem _ _

theorem presignUpload_invalidContentType (s : Service σ) (st : σ)
    (freshUUID : String) (req : PresignUploadRequest)
    (h : s.isValidContentType req.contentType = false) :
    s.PresignUpload st freshUUID req =
      ⟨st, [], .error (.invalidContentType req.contentType)⟩ := by
  unfold Service.PresignUpload
  rw [h]
  rfl

theorem presignUpload_sizeExceeded (s : Service σ) (st : σ)
    (freshUUID : String) (req : PresignUploadRequest)
    (hct : s.isValidContentType req.contentType = true)
    (hsz : req.maxFileSize > s.maxFileSize) :
    s.PresignUpload st freshUUID req =
      ⟨st, [], .error (.sizeExceeded req.maxFileSize s.maxFileSize)⟩ := by
  unfold Service.PresignUpload
  rw [hct]
  simp only [Bool.not_true, Bool.false_eq_true, if_false, if_pos hsz]

theorem presignUpload_gates_pass (s : Service σ) (st : σ)
    (freshUUID : String) (req : PresignUploadRequest)
    (hct : s.isValidContentType req.contentType = true)
    (hsz : ¬ req.maxFileSize > s.maxFileSize) :
    s.PresignUpload st freshUUID req =
      (match s.storage.GeneratePresignedUploadURL st req.bucketName
          (generateObjectKey req.path req.fileName req.contentType freshUUID)
          req.contentType defaultUploadExpirySeconds req.maxFileSize with
       | (st', .error e) =>
           ⟨st',
             [.generateUploadURL req.bucketName
               (generateObjectKey req.path req.fileName req.contentType freshUUID)
               req.contentType defaultUploadExpirySeconds req.maxFileSize],
             .error (.generateUploadURLFailed e)⟩
       | (st', .ok (presignedURL, formData)) =>
           ⟨st',
             [.generateUploadURL req.bucketName
               (generateObjectKey req.path req.fileName req.contentType freshUUID)
               req.contentType defaultUploadExpirySeconds req.maxFileSize],
             .ok { presignedUrl := presignedURL
                   objectKey := generateObjectKey req.path req.fileName req.contentType freshUUID
                   expiresIn := defaultUploadExpirySeconds
                   formData := formData }⟩) := by
  unfold Service.PresignUpload
  rw [hct]
  simp only [Bool.not_true, Bool.false_eq_true, if_false, if_neg hsz]

/-- The MinIO bucket-creation model succeeds on every input, adding the
bucket exactly when it was absent. -/
theorem minIOStorage_createBucket_eq (buckets : List String) (bucketName : String) :
    MinIOStorage.CreateBucket buckets bucketName =
      (if bucketName ∈ buckets then buckets else bucketName :: buckets,
        .ok ()) := by
  unfold MinIOStorage.CreateBucket MinIOClient.BucketExists MinIOClient.MakeBucket
  by_cases h : bucketName ∈ buckets <;> simp [h]

/-- A private-bucket creation whose backend call succeeds: one backend
call, success response. -/
theorem createBucket_private_ok (s : Service σ) (st st' : σ)
    (req : CreateBucketRequest) (hpriv : req.isPublic = false)
    (hc : s.storage.CreateBucket st req.bucketName = (st', .ok ())) :
    s.CreateBucket st req =
      ⟨st', [.createBucket req.bucketName], .ok { success := true }⟩ := by
  simp only [Service.CreateBucket, hc, hpriv, Bool.false_eq_true, if_false]

/-! ## Claims -/

/-- Claim C1, counterexample: `generateObjectKey` does not preserve
repeated separators — with `path = "a//b"` and `fileName = "c.jpg"` the
key is the cleaned `"a/b/c.jpg"`, not `path` joined with the name by a
single separator. -/
theorem c1_counterexample :
    generateObjectKey "a//b" "c.jpg" "image/jpeg"
        "00000000-0000-0000-0000-000000000000" = "a/b/c.jpg"
    ∧ generateObjectKey "a//b" "c.jpg" "image/jpeg"
        "00000000-0000-0000-0000-000000000000" ≠ "a//b" ++ "/" ++ "c.jpg" := by
  constructor <;> decide

/-- Claim C1 (amended): for every non-empty path, the object key is the
path joined with the name (the verbatim fileName, or uuid-plus-extension
when fileName is empty) by a single separator and then passed through Go's
lexical `filepath.Clean` — which collapses repeated separators and
resolves `.` and interior `..` segments — rather than being preserved
verbatim; no traversal sanitization is performed beyond that cleaning, so
a relative path's leading `..` segments survive into the key, as the
second conjunct shows on `path = "../../etc"`. -/
theorem c1_generateObjectKey_joins_then_cleans
    (path fileName contentType freshUUID : String) (hp : path ≠ "") :
    generateObjectKey path fileName contentType freshUUID =
      clean (path ++ "/" ++
        (if fileName ≠ "" then fileName else freshUUID ++ extForContentType contentType))
    ∧ generateObjectKey "../../etc" "passwd" contentType freshUUID =
        "../../etc/passwd" := by
  constructor
  · unfold generateObjectKey filepathJoin
    by_cases hf : fileName = ""
    · simp only [hf, hp, if_neg, if_pos, ne_eq, not_true_eq_false, ite_false,
        not_false_eq_true, ite_true]
      rw [if_neg (append_ne_empty_of_right _ _ (extForContentType_ne_empty _))]
    · simp only [ne_eq, hf, not_false_eq_true, ite_true, hp, ite_false]
  · rfl

theorem c1_generateObjectKey_joins_then_cleans_witness :
    generateObjectKey "users//avatars" "avatar.jpg" "image/jpeg" "u" =
      clean ("users//avatars" ++ "/" ++
        (if "avatar.jpg" ≠ "" then "avatar.jpg" else "u" ++ extForContentType "image/jpeg"))
    ∧ generateObjectKey "../../etc" "passwd" "image/jpeg" "u" = "../../etc/passwd" :=
  c1_generateObjectKey_joins_then_cleans "users//avatars" "avatar.jpg" "image/jpeg" "u"
    (by decide)

/-- Claim C2: a content type that is not an exact string member of the
configured allow-list is rejected with the invalid-content-type error
before any backend call (empty trace); an exact member passes the gate (no
run ever surfaces the invalid-content-type error). -/
theorem c2_content_type_gate (cfg : Config) (b : Storage σ) (st : σ)
    (freshUUID : String) (req : PresignUploadRequest) :
    (req.contentType ∉ cfg.AllowedContentTypes →
      Service.PresignUpload (NewService cfg b) st freshUUID req =
        ⟨st, [], .error (.invalidContentType req.contentType)⟩)
    ∧ (req.contentType ∈ cfg.AllowedContentTypes →
      ∀ badContentType,
        (Service.PresignUpload (NewService cfg b) st freshUUID req).result ≠
          .error (.invalidContentType badContentType)) := by
  constructor
  · intro hmem
    apply presignUpload_invalidContentType
    cases h : (NewService cfg b).isValidContentType req.contentType
    · rfl
    · exact absurd ((isValidContentType_newService cfg b req.contentType).mp h) hmem
  · intro hmem badContentType
    have hv : (NewService cfg b).isValidContentType req.contentType = true :=
      (isValidContentType_newService cfg b req.contentType).mpr hmem
    by_cases hsz : req.maxFileSize > cfg.MaxFileSize
    · rw [presignUpload_sizeExceeded _ _ _ _ hv hsz]
      simp
    · rw [presignUpload_gates_pass _ _ _ _ hv hsz]
      rcases hcall : (NewService cfg b).storage.GeneratePresignedUploadURL st
          req.bucketName
          (generateObjectKey req.path req.fileName req.contentType freshUUID)
          req.contentType defaultUploadExpirySeconds req.maxFileSize with ⟨st', res⟩
      cases res with
      | error e => simp [hcall]
      | ok v =>
          rcases v with ⟨url, formData⟩
          simp [hcall]

theorem c2_content_type_gate_witness :
    (Service.PresignUpload (NewService testConfig stubStorage) () "u"
        { bucketName := "b", contentType := "text/html", maxFileSize := 1,
          path := "", fileName := "f" } =
      ⟨(), [], .error (.invalidContentType "text/html")⟩)
    ∧ ((Service.PresignUpload (NewService testConfig stubStorage) () "u"
        { bucketName := "b", contentType := "image/png", maxFileSize := 1,
          path := "", fileName := "f" }).result ≠
      .error (.invalidContentType "image/png")) :=
  ⟨(c2_content_type_gate testConfig stubStorage () "u"
      { bucketName := "b", contentType := "text/html", maxFileSize := 1,
        path := "", fileName := "f" }).1 (by decide),
   (c2_content_type_gate testConfig stubStorage () "u"
      { bucketName := "b", contentType := "image/png", maxFileSize := 1,
        path := "", fileName := "f" }).2 (by decide) "image/png"⟩

/-- Claim C3: with an allowed content type, a requested max size above the
server ceiling is rejected with the size-exceeded error and an empty
backend trace; a requested max size at or below the ceiling passes the
gate and the requested value itself is the max-size argument of the single
backend upload-URL call. -/
theorem c3_size_gate (cfg : Config) (b : Storage σ) (st : σ)
    (freshUUID : String) (req : PresignUploadRequest)
    (hct : req.contentType ∈ cfg.AllowedContentTypes) :
    (req.maxFileSize > cfg.MaxFileSize →
      Service.PresignUpload (NewService cfg b) st freshUUID req =
        ⟨st, [], .error (.sizeExceeded req.maxFileSize cfg.MaxFileSize)⟩)
    ∧ (req.maxFileSize ≤ cfg.MaxFileSize →
      (Service.PresignUpload (NewService cfg b) st freshUUID req).calls =
        [.generateUploadURL req.bucketName
          (generateObjectKey req.path req.fileName req.contentType freshUUID)
          req.contentType defaultUploadExpirySeconds req.maxFileSize]) := by
  have hv : (NewService cfg b).isValidContentType req.contentType = true :=
    (isValidContentType_newService cfg b req.contentType).mpr hct
  constructor
  · intro hsz
    exact presignUpload_sizeExceeded _ _ _ _ hv hsz
  · intro hsz
    rw [presignUpload_gates_pass _ _ _ _ hv (not_lt.mpr hsz)]
    rcases hcall : (NewService cfg b).storage.GeneratePresignedUploadURL st
        req.bucketName
        (generateObjectKey req.path req.fileName req.contentType freshUUID)
        req.contentType defaultUploadExpirySeconds req.maxFileSize with ⟨st', res⟩
    cases res with
    | error e => simp [hcall]
    | ok v =>
        rcases v with ⟨url, formData⟩
        simp [hcall]

theorem c3_size_gate_witness :
    (Service.PresignUpload (NewService testConfig stubStorage) () "u"
        { bucketName := "b", contentType := "image/png", maxFileSize := 10485761,
          path := "", fileName := "f" } =
      ⟨(), [], .error (.sizeExceeded 10485761 10485760)⟩)
    ∧ ((Service.PresignUpload (NewService testConfig stubStorage) () "u"
        { bucketName := "b", contentType := "image/png", maxFileSize := 5242880,
          path := "", fileName := "f" }).calls =
      [.generateUploadURL "b" "f" "image/png" 60 5242880]) :=
  ⟨(c3_size_gate testConfig stubStorage () "u"
      { bucketName := "b", contentType := "image/png", maxFileSize := 10485761,
        path := "", fileName := "f" } (by decide)).1 (by decide),
   (c3_size_gate testConfig stubStorage () "u"
      { bucketName := "b", contentType := "image/png", maxFileSize := 5242880,
        path := "", fileName := "f" } (by decide)).2 (by decide)⟩

/-- Claim C10: the size gate has no lower bound — any requested max size
at or below the ceiling, zero and negative values included, passes
validation and is forwarded unchanged as the max-size argument of the
backend upload-URL call. -/
theorem c10_size_gate_no_lower_bound (cfg : Config) (b : Storage σ) (st : σ)
    (freshUUID : String) (req : PresignUploadRequest)
    (hct : req.contentType ∈ cfg.AllowedContentTypes)
    (hsz : req.maxFileSize ≤ cfg.MaxFileSize) :
    (Service.PresignUpload (NewService cfg b) st freshUUID req).calls =
      [.generateUploadURL req.bucketName
        (generateObjectKey req.path req.fileName req.contentType freshUUID)
        req.contentType defaultUploadExpirySeconds req.maxFileSize] := by
  have hv : (NewService cfg b).isValidContentType req.contentType = true :=
    (isValidContentType_newService cfg b req.contentType).mpr hct
  rw [presignUpload_gates_pass _ _ _ _ hv (not_lt.mpr hsz)]
  rcases hcall : (NewService cfg b).storage.GeneratePresignedUploadURL st
      req.bucketName
      (generateObjectKey req.path req.fileName req.contentType freshUUID)
      req.contentType defaultUploadExpirySeconds req.maxFileSize with ⟨st', res⟩
  cases res with
  | error e => simp [hcall]
  | ok v =>
      rcases v with ⟨url, formData⟩
      simp [hcall]

theorem c10_size_gate_no_lower_bound_witness :
    (Service.PresignUpload (NewService testConfig stubStorage) () "u"
        { bucketName := "b", contentType := "image/png", maxFileSize := -5,
          path := "", fileName := "f" }).calls =
      [.generateUploadURL "b" "f" "image/png" 60 (-5)] :=
  c10_size_gate_no_lower_bound testConfig stubStorage () "u"
    { bucketName := "b", contentType := "image/png", maxFileSize := -5,
      path := "", fileName := "f" } (by decide) (by decide)

/-- Claim C6: with an empty fileName the derived name is the fresh UUID
string (canonical 36-character form, as produced by the uuid library)
followed by the extension the fixed table assigns to the content type
(`.jpg`, `.png`, `.webp`, else `.bin`); with an empty path the key is
exactly this name, with no prefix. -/
theorem c6_generated_name (freshUUID contentType : String)
    (hu : freshUUID.length = 36) :
    generateObjectKey "" "" contentType freshUUID =
      freshUUID ++ extForContentType contentType
    ∧ (generateObjectKey "" "" contentType freshUUID).length =
      36 + (extForContentType contentType).length
    ∧ extForContentType "image/jpeg" = ".jpg"
    ∧ extForContentType "image/png" = ".png"
    ∧ extForContentType "image/webp" = ".webp"
    ∧ (contentType ≠ "image/jpeg" → contentType ≠ "image/png" →
        contentType ≠ "image/webp" → extForContentType contentType = ".bin") := by
  refine ⟨rfl, ?_, rfl, rfl, rfl, ?_⟩
  · have h1 : generateObjectKey "" "" contentType freshUUID =
        freshUUID ++ extForContentType contentType := rfl
    rw [h1, String.length_append, hu]
  · intro h1 h2 h3
    unfold extForContentType
    rw [if_neg h1, if_neg h2, if_neg h3]

theorem c6_generated_name_witness :
    generateObjectKey "" "" "image/png" "123e4567-e89b-12d3-a456-426614174000" =
      "123e4567-e89b-12d3-a456-426614174000.png" :=
  (c6_generated_name "123e4567-e89b-12d3-a456-426614174000" "image/png"
      (by decide)).1.trans (by decide)

/-- Claim C7: a request that passes both gates and whose backend call
succeeds yields a response carrying the backend's URL, the derived key,
expiresIn 60 (the fixed TTL also passed to the backend) and the backend's
form data unchanged; and the key derived from path `users/avatars` and
fileName `avatar.jpg` is exactly `users/avatars/avatar.jpg`. -/
theorem c7_presignUpload_success (cfg : Config) (b : Storage σ) (st st' : σ)
    (freshUUID presignedURL : String) (formData : List (String × String))
    (req : PresignUploadRequest)
    (hct : req.contentType ∈ cfg.AllowedContentTypes)
    (hsz : req.maxFileSize ≤ cfg.MaxFileSize)
    (hcall : b.GeneratePresignedUploadURL st req.bucketName
        (generateObjectKey req.path req.fileName req.contentType freshUUID)
        req.contentType defaultUploadExpirySeconds req.maxFileSize =
      (st', .ok (presignedURL, formData))) :
    Service.PresignUpload (NewService cfg b) st freshUUID req =
      ⟨st',
        [.generateUploadURL req.bucketName
          (generateObjectKey req.path req.fileName req.contentType freshUUID)
          req.contentType defaultUploadExpirySeconds req.maxFileSize],
        .ok { presignedUrl := presignedURL
              objectKey := generateObjectKey req.path req.fileName req.contentType freshUUID
              expiresIn := defaultUploadExpirySeconds
              formData := formData }⟩
    ∧ generateObjectKey "users/avatars" "avatar.jpg" "image/jpeg" freshUUID =
        "users/avatars/avatar.jpg" := by
  have hv : (NewService cfg b).isValidContentType req.contentType = true :=
    (isValidContentType_newService cfg b req.contentType).mpr hct
  constructor
  · rw [presignUpload_gates_pass _ _ _ _ hv (not_lt.mpr hsz)]
    have hb : (NewService cfg b).storage = b := rfl
    rw [hb, hcall]
  · rfl

theorem c7_presignUpload_success_witness :
    Service.PresignUpload (NewService testConfig stubStorage) () "u"
        { bucketName := "mediatest", contentType := "image/jpeg",
          maxFileSize := 5242880, path := "users/avatars",
          fileName := "avatar.jpg" } =
      ⟨(),
        [.generateUploadURL "mediatest" "users/avatars/avatar.jpg" "image/jpeg"
          60 5242880],
        .ok { presignedUrl := "http://minio.local/upload"
              objectKey := "users/avatars/avatar.jpg"
              expiresIn := 60
              formData := [("key", "users/avatars/avatar.jpg")] }⟩ := by
  have h := (c7_presignUpload_success testConfig stubStorage () () "u"
      "http://minio.local/upload" [("key", "users/avatars/avatar.jpg")]
      { bucketName := "mediatest", contentType := "image/jpeg",
        maxFileSize := 5242880, path := "users/avatars", fileName := "avatar.jpg" }
      (by decide) (by decide) (by decide)).1
  rw [h]
  decide

/-- Claim C4: PresignDownload consults ObjectExists first (it is the head
of every backend trace); when the object does not exist it fails with the
object-not-found error without calling the download-URL backend; when the
object exists and the backend succeeds, the response carries the URL and
expiresIn 3600, the fixed TTL also passed to the backend. -/
theorem c4_presignDownload (s : Service σ) (st : σ)
    (req : PresignDownloadRequest) :
    ((s.PresignDownload st req).calls.head? =
      some (.objectExists req.bucketName req.objectKey))
    ∧ (∀ st', s.storage.ObjectExists st req.bucketName req.objectKey =
          (st', .ok false) →
        s.PresignDownload st req =
          ⟨st', [.objectExists req.bucketName req.objectKey],
            .error (.objectNotFound req.objectKey req.bucketName)⟩)
    ∧ (∀ st' st'' presignedURL,
        s.storage.ObjectExists st req.bucketName req.objectKey =
          (st', .ok true) →
        s.storage.GeneratePresignedDownloadURL st' req.bucketName req.objectKey
          3600 = (st'', .ok presignedURL) →
        s.PresignDownload st req =
          ⟨st'', [.objectExists req.bucketName req.objectKey,
                  .generateDownloadURL req.bucketName req.objectKey 3600],
            .ok { presignedUrl := presignedURL, expiresIn := 3600 }⟩) := by
  refine ⟨?_, ?_, ?_⟩
  · rcases h : s.storage.ObjectExists st req.bucketName req.objectKey with ⟨st', res⟩
    cases res with
    | error e => simp [Service.PresignDownload, h]
    | ok exists_ =>
        cases exists_ with
        | false => simp [Service.PresignDownload, h]
        | true =>
            rcases h2 : s.storage.GeneratePresignedDownloadURL st' req.bucketName
                req.objectKey defaultDownloadExpirySeconds with ⟨st'', res2⟩
            cases res2 <;> simp [Service.PresignDownload, h, h2]
  · intro st' h
    simp [Service.PresignDownload, h]
  · intro st' st'' presignedURL h h2
    simp [Service.PresignDownload, h, h2, defaultDownloadExpirySeconds]

theorem c4_presignDownload_witness :
    (Service.PresignDownload (NewService testConfig stubStorageNoObject) ()
        { bucketName := "b", objectKey := "k" } =
      ⟨(), [.objectExists "b" "k"], .error (.objectNotFound "k" "b")⟩)
    ∧ (Service.PresignDownload (NewService testConfig stubStorage) ()
        { bucketName := "b", objectKey := "k" } =
      ⟨(), [.objectExists "b" "k", .generateDownloadURL "b" "k" 3600],
        .ok { presignedUrl := "http://minio.local/download", expiresIn := 3600 }⟩) :=
  ⟨(c4_presignDownload (NewService testConfig stubStorageNoObject) ()
      { bucketName := "b", objectKey := "k" }).2.1 () rfl,
   (c4_presignDownload (NewService testConfig stubStorage) ()
      { bucketName := "b", objectKey := "k" }).2.2 () () "http://minio.local/download"
      rfl rfl⟩

set_option maxRecDepth 8192 in
/-- Claim C5: a public bucket creation whose backend creation succeeds
performs exactly one setBucketPolicy call, whose document is the fixed
template around the bucket name (a pure function of it); the document's
resource is `arn:aws:s3:::<bucket>/*`, its action list is exactly
`["s3:GetObject"]` for principal `*`, and the template grants no put,
delete, list, or wildcard action; a private creation performs zero
setBucketPolicy calls. -/
theorem c5_public_read_policy (s : Service σ) (st : σ)
    (req : CreateBucketRequest) :
    (req.isPublic = false →
      setBucketPolicyCalls (s.CreateBucket st req).calls = [])
    ∧ (req.isPublic = true → ∀ st',
        s.storage.CreateBucket st req.bucketName = (st', .ok ()) →
        setBucketPolicyCalls (s.CreateBucket st req).calls =
          [(req.bucketName, publicReadPolicy req.bucketName)])
    ∧ (∃ pre post, publicReadPolicy req.bucketName =
        pre ++ ("arn:aws:s3:::" ++ req.bucketName ++ "/*") ++ post)
    ∧ strContains policyDocHead "\"Action\": [\"s3:GetObject\"]" = true
    ∧ strContains policyDocHead "\"Principal\": \x7b\"AWS\": [\"*\"]\x7d" = true
    ∧ strContains policyDocHead "s3:PutObject" = false
    ∧ strContains policyDocHead "s3:DeleteObject" = false
    ∧ strContains policyDocHead "s3:ListBucket" = false
    ∧ strContains policyDocHead "s3:*" = false
    ∧ strContains policyDocTail "s3:" = false := by
  refine ⟨?_, ?_, ?_, by decide, by decide, by decide, by decide, by decide,
    by decide, by decide⟩
  · intro hpriv
    rcases hc : s.storage.CreateBucket st req.bucketName with ⟨st', res⟩
    cases res with
    | error e => simp [Service.CreateBucket, hc, setBucketPolicyCalls]
    | ok u => simp [Service.CreateBucket, hc, hpriv, setBucketPolicyCalls]
  · intro hpub st' hc
    rcases hp : s.storage.SetBucketPolicy st' req.bucketName
        (publicReadPolicy req.bucketName) with ⟨st'', res2⟩
    cases res2 <;>
      simp [Service.CreateBucket, hc, hpub, hp, setBucketPolicyCalls]
  · refine ⟨"\x7b\n\t\t\t\"Version\": \"2012-10-17\",\n\t\t\t\"Statement\": [\n\t\t\t\t\x7b\n\t\t\t\t\t\"Effect\": \"Allow\",\n\t\t\t\t\t\"Principal\": \x7b\"AWS\": [\"*\"]\x7d,\n\t\t\t\t\t\"Action\": [\"s3:GetObject\"],\n\t\t\t\t\t\"Resource\": [\"",
      "\"]\n\t\t\t\t\x7d\n\t\t\t]\n\t\t\x7d", ?_⟩
    have h1 : policyDocHead =
        "\x7b\n\t\t\t\"Version\": \"2012-10-17\",\n\t\t\t\"Statement\": [\n\t\t\t\t\x7b\n\t\t\t\t\t\"Effect\": \"Allow\",\n\t\t\t\t\t\"Principal\": \x7b\"AWS\": [\"*\"]\x7d,\n\t\t\t\t\t\"Action\": [\"s3:GetObject\"],\n\t\t\t\t\t\"Resource\": [\"" ++
          "arn:aws:s3:::" := by decide
    have h2 : policyDocTail = "/*" ++ "\"]\n\t\t\t\t\x7d\n\t\t\t]\n\t\t\x7d" := by
      decide
    unfold publicReadPolicy
    rw [h1, h2]
    simp only [String.append_assoc]

set_option maxRecDepth 8192 in
theorem c5_public_read_policy_witness :
    (setBucketPolicyCalls
      (Service.CreateBucket (NewService testConfig stubStorage) ()
        { bucketName := "media", isPublic := false }).calls = [])
    ∧ (setBucketPolicyCalls
      (Service.CreateBucket (NewService testConfig stubStorage) ()
        { bucketName := "media", isPublic := true }).calls =
      [("media", publicReadPolicy "media")]) :=
  ⟨(c5_public_read_policy (NewService testConfig stubStorage) ()
      { bucketName := "media", isPublic := false }).1 rfl,
   (c5_public_read_policy (NewService testConfig stubStorage) ()
      { bucketName := "media", isPublic := true }).2.1 rfl () rfl⟩

/-- Claim C8: with the MinIO bucket model, creating the same private
bucket twice succeeds both times; the backend create-if-absent is invoked
on each call (each trace is exactly that one call), and the second
creation of the existing bucket is a no-op on the backend state rather
than an error. -/
theorem c8_createBucket_idempotent (cfg : Config) (b : Storage (List String))
    (hb : b.CreateBucket = MinIOStorage.CreateBucket)
    (buckets : List String) (bucketName : String) :
    (Service.CreateBucket (NewService cfg b) buckets
        { bucketName := bucketName, isPublic := false }).result =
      .ok { success := true }
    ∧ (Service.CreateBucket (NewService cfg b)
        (Service.CreateBucket (NewService cfg b) buckets
          { bucketName := bucketName, isPublic := false }).state
        { bucketName := bucketName, isPublic := false }).result =
      .ok { success := true }
    ∧ (Service.CreateBucket (NewService cfg b) buckets
        { bucketName := bucketName, isPublic := false }).calls =
      [.createBucket bucketName]
    ∧ (Service.CreateBucket (NewService cfg b)
        (Service.CreateBucket (NewService cfg b) buckets
          { bucketName := bucketName, isPublic := false }).state
        { bucketName := bucketName, isPublic := false }).calls =
      [.createBucket bucketName]
    ∧ (Service.CreateBucket (NewService cfg b)
        (Service.CreateBucket (NewService cfg b) buckets
          { bucketName := bucketName, isPublic := false }).state
        { bucketName := bucketName, isPublic := false }).state =
      (Service.CreateBucket (NewService cfg b) buckets
        { bucketName := bucketName, isPublic := false }).state := by
  have hc1 : (NewService cfg b).storage.CreateBucket buckets bucketName =
      (if bucketName ∈ buckets then buckets else bucketName :: buckets,
        .ok ()) := by
    show b.CreateBucket buckets bucketName = _
    rw [hb]
    exact minIOStorage_createBucket_eq buckets bucketName
  have run1 := createBucket_private_ok (NewService cfg b) buckets
    (if bucketName ∈ buckets then buckets else bucketName :: buckets)
    { bucketName := bucketName, isPublic := false } rfl hc1
  have hmem : bucketName ∈
      (if bucketName ∈ buckets then buckets else bucketName :: buckets) := by
    by_cases h : bucketName ∈ buckets <;> simp [h]
  have hc2 : (NewService cfg b).storage.CreateBucket
      (if bucketName ∈ buckets then buckets else bucketName :: buckets)
      bucketName =
      (if bucketName ∈ buckets then buckets else bucketName :: buckets,
        .ok ()) := by
    show b.CreateBucket _ bucketName = _
    rw [hb, minIOStorage_createBucket_eq, if_pos hmem]
  have run2 := createBucket_private_ok (NewService cfg b)
    (if bucketName ∈ buckets then buckets else bucketName :: buckets)
    (if bucketName ∈ buckets then buckets else bucketName :: buckets)
    { bucketName := bucketName, isPublic := false } rfl hc2
  rw [run1]
  rw [run2]
  exact ⟨rfl, rfl, rfl, rfl, rfl⟩

theorem c8_createBucket_idempotent_witness :
    (Service.CreateBucket (NewService testConfig minioBucketBackend) []
        { bucketName := "mediatest", isPublic := false }).result =
      .ok { success := true }
    ∧ (Service.CreateBucket (NewService testConfig minioBucketBackend)
        (Service.CreateBucket (NewService testConfig minioBucketBackend) []
          { bucketName := "mediatest", isPublic := false }).state
        { bucketName := "mediatest", isPublic := false }).result =
      .ok { success := true } :=
  ⟨(c8_createBucket_idempotent testConfig minioBucketBackend rfl []
      "mediatest").1,
   (c8_createBucket_idempotent testConfig minioBucketBackend rfl []
      "mediatest").2.1⟩

/-- Claim C9: when bucket creation succeeds but applying the public
policy fails, CreateBucket surfaces the policy error — a constructor
distinct from the bucket-creation error, so the caller can tell the steps
apart — and performs no further backend call after the failing
setBucketPolicy (in particular no deletion: the storage contract has no
bucket-deletion operation at all), leaving the backend state as the two
executed calls left it. -/
theorem c9_policy_failure_distinct (s : Service σ) (st st' st'' : σ)
    (req : CreateBucketRequest) (e : String)
    (hpub : req.isPublic = true)
    (hc : s.storage.CreateBucket st req.bucketName = (st', .ok ()))
    (hp : s.storage.SetBucketPolicy st' req.bucketName
        (publicReadPolicy req.bucketName) = (st'', .error e)) :
    s.CreateBucket st req =
      ⟨st'', [.createBucket req.bucketName,
              .setBucketPolicy req.bucketName (publicReadPolicy req.bucketName)],
        .error (.setBucketPolicyFailed e)⟩
    ∧ (∀ cause, ServiceError.setBucketPolicyFailed e ≠
        ServiceError.createBucketFailed cause) := by
  constructor
  · simp [Service.CreateBucket, hc, hpub, hp]
  · intro cause
    simp

theorem c9_policy_failure_distinct_witness :
    Service.CreateBucket (NewService testConfig stubStoragePolicyFails) ()
        { bucketName := "media", isPublic := true } =
      ⟨(), [.createBucket "media",
            .setBucketPolicy "media" (publicReadPolicy "media")],
        .error (.setBucketPolicyFailed "connection reset")⟩ :=
  (c9_policy_failure_distinct (NewService testConfig stubStoragePolicyFails)
    () () () { bucketName := "media", isPublic := true } "connection reset"
    rfl rfl rfl).1

example : clean "a//b/c" = "a/b/c" := by decide
example : clean "a/./b/../c" = "a/c" := by decide
example : clean "../../etc/passwd" = "../../etc/passwd" := by decide
example : clean "/" = "/" := by decide
example : clean "a/.." = "." := by decide
example : clean "/../a" = "/a" := by decide
example : generateObjectKey "users/avatars" "avatar.jpg" "image/jpeg" "u" =
    "users/avatars/avatar.jpg" := by decide
example : generateObjectKey "a//b" "c.jpg" "image/jpeg" "u" = "a/b/c.jpg" := by decide
example : generateObjectKey "" "" "image/png" "123e4567-e89b-12d3-a456-426614174000" =
    "123e4567-e89b-12d3-a456-426614174000.png" := by decide
